import Mathlib

/- Shallow embedding of the per-guild music queue and player core of the
discord-music repository (config.py, music_player.py, audio_source.py).
Python objects are modelled as Lean structures, in-place mutation as
explicit state passing, raised exceptions as Except results, and the
external collaborators (yt-dlp extraction, the voice transport) as
function parameters standing for their observable responses.  The
theorems at the end of the file settle the specification claims. -/

/- config.py: MAX_QUEUE_SIZE = int(os.getenv("MAX_QUEUE_SIZE", "100")),
embedded at its documented default value. -/

def Config.MAX_QUEUE_SIZE : Nat := 100

/- music_player.py, class Track.  The Python constructor derives
needs_resolution from "url is None"; duration defaults to 0 and uploader
defaults to the artist (kwargs.get defaults). -/

structure Track where
  title : String
  artist : String
  search_query : String
  url : Option String
  source : String
  user_id : Option String
  needs_resolution : Bool
  duration : Nat
  uploader : String
deriving DecidableEq

def Track.init (title artist search_query : String) (url : Option String)
    (source : String) (user_id : Option String) (duration : Nat)
    (uploader : Option String) : Track :=
  { title := title
    artist := artist
    search_query := search_query
    url := url
    source := source
    user_id := user_id
    needs_resolution := url.isNone
    duration := duration
    uploader := uploader.getD artist }

def Track.from_youtube (title url uploader : String) (duration : Nat) : Track :=
  Track.init title uploader title (some url) "youtube" none duration (some uploader)

def Track.from_spotify (name artist : String) (user_id : Option String) : Track :=
  Track.init name artist (artist ++ " " ++ name) none "spotify->youtube" user_id 0 none

def Track.toDisplay (t : Track) : String := t.artist ++ " - " ++ t.title

/- music_player.py, class MusicQueue. -/

structure MusicQueue where
  guild_id : Int
  tracks : List Track
  current_track : Option Track
  loop_mode : Bool
  shuffle_mode : Bool
deriving DecidableEq

def MusicQueue.init (guild_id : Int) : MusicQueue :=
  { guild_id := guild_id
    tracks := []
    current_track := none
    loop_mode := false
    shuffle_mode := false }

/- add_track raises ValueError when the queue is full, before any
mutation; the raised case is therefore an Except.error with the queue
object untouched.  On success it appends and returns the new length
(the 1-based position of the added track). -/

def MusicQueue.add_track (q : MusicQueue) (t : Track) : Except String (Nat × MusicQueue) :=
  if Config.MAX_QUEUE_SIZE ≤ q.tracks.length then
    Except.error ("Queue is full (max " ++ toString Config.MAX_QUEUE_SIZE ++ " tracks)")
  else
    Except.ok ((q.tracks ++ [t]).length, { q with tracks := q.tracks ++ [t] })

/- The state reached by one add_track call: on the raised (error) case the
caller still holds the unchanged queue. -/

def MusicQueue.runAddTrack (q : MusicQueue) (t : Track) : MusicQueue :=
  match q.add_track t with
  | Except.ok (_, q2) => q2
  | Except.error _ => q

/- The state reached by a whole sequence of add_track calls. -/

def MusicQueue.runAddTracks (q : MusicQueue) : List Track → MusicQueue
  | [] => q
  | t :: ts => MusicQueue.runAddTracks (q.runAddTrack t) ts

/- add_tracks: the loop body checks capacity before each append and
breaks silently at capacity, counting the tracks actually added. -/

def MusicQueue.add_tracksGo (q : MusicQueue) (added : Nat) : List Track → Nat × MusicQueue
  | [] => (added, q)
  | t :: rest =>
    if Config.MAX_QUEUE_SIZE ≤ q.tracks.length then (added, q)
    else MusicQueue.add_tracksGo { q with tracks := q.tracks ++ [t] } (added + 1) rest

def MusicQueue.add_tracks (q : MusicQueue) (ts : List Track) : Nat × MusicQueue :=
  MusicQueue.add_tracksGo q 0 ts

/- get_next_track: empty queue yields none and no change.  With
shuffle_mode the Python code picks random.choice(self.tracks) and removes
that chosen element; the random draw is modelled by the function
parameter pick, reduced modulo the length so that it always designates a
valid position, and the removal as eraseIdx at the chosen position.
Without shuffle_mode it pops index 0. -/

def MusicQueue.get_next_track (pick : List Track → Nat) (q : MusicQueue) :
    Option Track × MusicQueue :=
  match q.tracks with
  | [] => (none, q)
  | t0 :: rest =>
    if q.shuffle_mode then
      let ts := t0 :: rest
      let i := pick ts % ts.length
      (ts.get? i, { q with tracks := ts.eraseIdx i })
    else
      (some t0, { q with tracks := rest })

def MusicQueue.peek_next (q : MusicQueue) : Option Track :=
  q.tracks.head?

def MusicQueue.clear (q : MusicQueue) : Nat × MusicQueue :=
  (q.tracks.length, { q with tracks := [] })

/- remove_track(index): Python int indices may be negative, so the index
is an Int here; the guard 0 <= index < len(self.tracks) makes the
operation total, returning None and changing nothing out of range. -/

def MusicQueue.remove_track (q : MusicQueue) (index : Int) : Option Track × MusicQueue :=
  if 0 ≤ index ∧ index < (q.tracks.length : Int) then
    (q.tracks.get? index.toNat, { q with tracks := q.tracks.eraseIdx index.toNat })
  else
    (none, q)

/- Repeated get_next_track calls: the list of tracks handed out by n
successive calls together with the final queue state. -/

def MusicQueue.dequeueN (pick : List Track → Nat) : MusicQueue → Nat → List Track × MusicQueue
  | q, 0 => ([], q)
  | q, n + 1 =>
    match MusicQueue.get_next_track pick q with
    | (none, q2) => ([], q2)
    | (some t, q2) =>
      let r := MusicQueue.dequeueN pick q2 n
      (t :: r.1, r.2)

/- audio_source.py: the bot-detection classifier.  Python lowercases
str(e) and checks the two marker substrings. -/

def lowerData (s : String) : List Char := s.data.map Char.toLower

def containsSub (msg pat : List Char) : Bool := decide (pat <:+: msg)

def isBotDetection (msg : String) : Bool :=
  containsSub (lowerData msg) "sign in to confirm".data ||
  containsSub (lowerData msg) "not a bot".data

/- AudioSource.get_youtube_info post-processes the dict returned by a
strategy: a dict carrying an entries key yields its first entry when that
entry is truthy, an entries-free dict is returned whole when truthy, and
anything else falls through to the next strategy.  The dict shapes are
modelled by YtData over an abstract payload type. -/

inductive YtData (α : Type) where
  | withEntries (entries : List α)
  | plain (value : α) (truthy : Bool)
deriving DecidableEq

/- The strategy loop of get_youtube_info.  A strategy call that raises is
an Except.error carrying str(e).  In the except block, bot-detection
errors hit the continue statement; any other error on the last strategy
returns None; any other error on a non-last strategy falls off the end of
the except block and the for loop proceeds to the next strategy anyway. -/

def AudioSource.get_youtube_infoGo {α : Type} (truthyA : α → Bool) (query : String) :
    List (String → Except String (YtData α)) → Option α
  | [] => none
  | s :: rest =>
    match s query with
    | Except.ok (YtData.withEntries l) =>
      match l with
      | [] => AudioSource.get_youtube_infoGo truthyA query rest
      | r :: _ =>
        if truthyA r then some r
        else AudioSource.get_youtube_infoGo truthyA query rest
    | Except.ok (YtData.plain v truthy) =>
      if truthy then some v
      else AudioSource.get_youtube_infoGo truthyA query rest
    | Except.error e =>
      if isBotDetection e then AudioSource.get_youtube_infoGo truthyA query rest
      else if rest.isEmpty then none
      else AudioSource.get_youtube_infoGo truthyA query rest

/- get_youtube_info has exactly two strategies: standard extraction and
_extract_with_fallback; both are external yt-dlp calls, passed here as
function parameters describing their responses. -/

def AudioSource.get_youtube_info {α : Type} (truthyA : α → Bool)
    (s1 s2 : String → Except String (YtData α)) (query : String) : Option α :=
  AudioSource.get_youtube_infoGo truthyA query [s1, s2]

/- AudioSource.create_audio_source: for attempt in range(3).  The result
records, besides the returned value, the attempt indices actually issued
to YTDLSource.from_url and the seconds handed to asyncio.sleep, so that
the retry and backoff behaviour is part of the observable outcome. -/

def AudioSource.max_retries : Nat := 3

structure CasResult (α : Type) where
  source : Option α
  calls : List Nat
  delays : List Nat
deriving DecidableEq

/- The loop body: remaining counts the iterations range(3) still owes,
attempt is the current index.  A bot-detection error before the last
attempt sleeps 2 ^ attempt and continues; any other error on a non-last
attempt falls off the except block and the loop continues with no sleep;
an error on the last attempt returns None. -/

def AudioSource.create_audio_sourceGo {α : Type} (fromUrl : Nat → Except String α) :
    Nat → Nat → List Nat → List Nat → CasResult α
  | 0, _, calls, delays => { source := none, calls := calls, delays := delays }
  | remaining + 1, attempt, calls, delays =>
    match fromUrl attempt with
    | Except.ok s => { source := some s, calls := calls ++ [attempt], delays := delays }
    | Except.error e =>
      if isBotDetection e ∧ attempt < AudioSource.max_retries - 1 then
        AudioSource.create_audio_sourceGo fromUrl remaining (attempt + 1)
          (calls ++ [attempt]) (delays ++ [2 ^ attempt])
      else if attempt = AudioSource.max_retries - 1 then
        { source := none, calls := calls ++ [attempt], delays := delays }
      else
        AudioSource.create_audio_sourceGo fromUrl remaining (attempt + 1)
          (calls ++ [attempt]) delays

def AudioSource.create_audio_source {α : Type} (fromUrl : Nat → Except String α) :
    CasResult α :=
  AudioSource.create_audio_sourceGo fromUrl AudioSource.max_retries 0 [] []

/- The yt-dlp info dict consumed by MusicPlayer._resolve_track_url,
restricted to the keys that method reads. -/

structure YtInfo where
  webpage_url : Option String
  url : Option String
  duration : Option Nat
  uploader : Option String
deriving DecidableEq

/- Python truthiness of an optional string: None and the empty string are
falsy. -/

def strTruthy : Option String → Bool
  | none => false
  | some s => !s.isEmpty

/- Python's a or b on optional strings. -/

def pyOrStr (a b : Option String) : Option String :=
  if strTruthy a then a else b

/- MusicPlayer._resolve_track_url: lookup stands for
get_youtube_info("ytsearch:" ++ search_query); it returns none both when
that call raises (the except branch leaves the track untouched) and when
it returns a falsy result (the if youtube_data guard fails).  On a truthy
result the track fields are overwritten and needs_resolution cleared. -/

def resolve_track_url (lookup : String → Option YtInfo) (t : Track) : Track :=
  match lookup ("ytsearch:" ++ t.search_query) with
  | some d =>
    { t with
      url := pyOrStr d.webpage_url d.url
      duration := d.duration.getD 0
      uploader := d.uploader.getD t.artist
      needs_resolution := false }
  | none => t

/- The voice transport handle (discord.VoiceClient) as seen through the
methods the player calls on it. -/

structure VoiceClient where
  connected : Bool
  playing : Bool
  paused : Bool
deriving DecidableEq

structure MusicPlayer where
  guild_id : Int
  queue : MusicQueue
  voice_client : Option VoiceClient
  is_paused : Bool
deriving DecidableEq

def MusicPlayer.is_playing (p : MusicPlayer) : Bool :=
  match p.voice_client with
  | some vc => vc.playing
  | none => false

/- The check self.voice_client and self.voice_client.is_paused() used by
resume. -/

def MusicPlayer.voiceIsPaused (p : MusicPlayer) : Bool :=
  match p.voice_client with
  | some vc => vc.paused
  | none => false

def MusicPlayer.pause (p : MusicPlayer) : Bool × MusicPlayer :=
  match p.voice_client with
  | some vc =>
    if vc.playing then
      (true, { p with
        voice_client := some { vc with playing := false, paused := true }
        is_paused := true })
    else (false, p)
  | none => (false, p)

def MusicPlayer.resume (p : MusicPlayer) : Bool × MusicPlayer :=
  match p.voice_client with
  | some vc =>
    if vc.paused then
      (true, { p with
        voice_client := some { vc with playing := true, paused := false }
        is_paused := false })
    else (false, p)
  | none => (false, p)

/- MusicPlayer.play_next.  Returns False when the voice client is absent
or disconnected, or when the queue hands out no track.  A dequeued track
that still lacks a truthy url after the resolution step, or whose audio
source cannot be created, is dropped and play_next recurses on the rest
of the queue.  On success current_track is set to the (resolved) track
and the stream is handed to voice_client.play.  createSource stands for
AudioSource.create_audio_source on the resolved url (none when that call
yields no source); its retry internals are modelled separately above. -/

def MusicPlayer.play_next {α : Type} (lookup : String → Option YtInfo)
    (createSource : String → Option α) (pick : List Track → Nat)
    (p : MusicPlayer) : Bool × MusicPlayer :=
  match p.voice_client with
  | none => (false, p)
  | some vc =>
    if !vc.connected then (false, p)
    else
      match hq : MusicQueue.get_next_track pick p.queue with
      | (none, q2) => (false, { p with queue := q2 })
      | (some t, q2) =>
        let t2 := if t.needs_resolution then resolve_track_url lookup t else t
        if !(strTruthy t2.url) then
          MusicPlayer.play_next lookup createSource pick { p with queue := q2 }
        else
          match createSource (t2.url.getD "") with
          | none => MusicPlayer.play_next lookup createSource pick { p with queue := q2 }
          | some _ =>
            (true, { p with
              queue := { q2 with current_track := some t2 }
              voice_client := some { vc with playing := true } })
termination_by p.queue.tracks.length
decreasing_by
  all_goals
    simp only [MusicQueue.get_next_track] at hq
    split at hq
    next heq =>
      simp at hq
    next t0 rest heq =>
      split at hq
      next hs =>
        have h2 := congrArg Prod.snd hq
        dsimp only at h2
        have hlt : pick (t0 :: rest) % (t0 :: rest).length < (t0 :: rest).length :=
          Nat.mod_lt _ (by simp)
        rw [heq, ← h2]
        dsimp only
        simp only [List.length_eraseIdx]
        rw [if_pos hlt]
        simp only [List.length_cons]
        omega
      next hs =>
        have h2 := congrArg Prod.snd hq
        dsimp only at h2
        rw [heq, ← h2]
        dsimp only
        simp only [List.length_cons]
        omega

/- Concrete data used by the witnesses. -/

def trackA : Track := Track.from_youtube "Song A" "urlA" "Uploader A" 120

def trackB : Track := Track.from_youtube "Song B" "urlB" "Uploader B" 95

def qEmpty : MusicQueue := MusicQueue.init 1

def qTwo : MusicQueue := { qEmpty with tracks := [trackA, trackB] }

def qFull : MusicQueue :=
  { qEmpty with tracks := List.replicate Config.MAX_QUEUE_SIZE trackA }

def pickZero : List Track → Nat := fun _ => 0

def vcPlaying : VoiceClient := { connected := true, playing := true, paused := false }

def vcConnected : VoiceClient := { connected := true, playing := false, paused := false }

def pIdle : MusicPlayer :=
  { guild_id := 1, queue := qEmpty, voice_client := none, is_paused := false }

def pPlaying : MusicPlayer := { pIdle with voice_client := some vcPlaying }

def trackSpotA : Track := Track.from_spotify "Song A" "Artist A" none

def trackSpotB : Track := Track.from_spotify "Song B" "Artist B" none

def pUnresolved : MusicPlayer :=
  { guild_id := 1
    queue := { qEmpty with tracks := [trackSpotA, trackSpotB] }
    voice_client := some vcConnected
    is_paused := false }

def lookupNone : String → Option YtInfo := fun _ => none

def sourceNone : String → Option Nat := fun _ => none

def truthyNat : Nat → Bool := fun n => decide (n ≠ 0)

def stratFailTimeout : String → Except String (YtData Nat) :=
  fun _ => Except.error "network timeout"

def stratOkSeven : String → Except String (YtData Nat) :=
  fun _ => Except.ok (YtData.plain 7 true)

def fromUrlC6 : Nat → Except String Nat :=
  fun n => if n = 0 then Except.error "http error 403" else Except.ok 42

def fromUrlAllBot : Nat → Except String Nat :=
  fun _ => Except.error "Sign in to confirm you are not a bot"


/- Helper lemmas about the queue operations, shared by the claim
theorems below. -/

lemma MusicQueue.add_tracksGo_eq : ∀ (ts : List Track) (q : MusicQueue) (added : Nat),
    MusicQueue.add_tracksGo q added ts =
      (added + min ts.length (Config.MAX_QUEUE_SIZE - q.tracks.length),
       { q with tracks := q.tracks ++ ts.take (Config.MAX_QUEUE_SIZE - q.tracks.length) }) := by
  intro ts
  induction ts with
  | nil =>
    intro q added
    simp [MusicQueue.add_tracksGo]
  | cons t rest ih =>
    intro q added
    by_cases hc : Config.MAX_QUEUE_SIZE ≤ q.tracks.length
    · have hk : Config.MAX_QUEUE_SIZE - q.tracks.length = 0 := Nat.sub_eq_zero_of_le hc
      simp [MusicQueue.add_tracksGo, hc, hk]
    · have hk : Config.MAX_QUEUE_SIZE - q.tracks.length =
          (Config.MAX_QUEUE_SIZE - (q.tracks.length + 1)) + 1 := by omega
      rw [MusicQueue.add_tracksGo, if_neg hc, ih]
      refine Prod.ext ?_ ?_
      · dsimp only
        simp only [List.length_append, List.length_cons, List.length_nil]
        omega
      · dsimp only
        simp only [MusicQueue.mk.injEq, List.length_append, List.length_cons,
          List.length_nil, true_and, and_true]
        rw [List.append_assoc, hk, List.take_succ_cons]
        simp

lemma MusicQueue.add_tracks_eq (q : MusicQueue) (ts : List Track) :
    q.add_tracks ts =
      (min ts.length (Config.MAX_QUEUE_SIZE - q.tracks.length),
       { q with tracks := q.tracks ++ ts.take (Config.MAX_QUEUE_SIZE - q.tracks.length) }) := by
  rw [MusicQueue.add_tracks, MusicQueue.add_tracksGo_eq]
  simp

lemma MusicQueue.runAddTrack_length_le (q : MusicQueue) (t : Track)
    (h : q.tracks.length ≤ Config.MAX_QUEUE_SIZE) :
    (q.runAddTrack t).tracks.length ≤ Config.MAX_QUEUE_SIZE := by
  unfold MusicQueue.runAddTrack MusicQueue.add_track
  by_cases hc : Config.MAX_QUEUE_SIZE ≤ q.tracks.length
  · rw [if_pos hc]
    exact h
  · rw [if_neg hc]
    simp only [List.length_append, List.length_cons, List.length_nil]
    omega

lemma MusicQueue.runAddTracks_length_le : ∀ (ts : List Track) (q : MusicQueue),
    q.tracks.length ≤ Config.MAX_QUEUE_SIZE →
    (q.runAddTracks ts).tracks.length ≤ Config.MAX_QUEUE_SIZE := by
  intro ts
  induction ts with
  | nil => intro q h; exact h
  | cons t rest ih =>
    intro q h
    exact ih (q.runAddTrack t) (MusicQueue.runAddTrack_length_le q t h)

lemma MusicQueue.get_next_track_nil (pick : List Track → Nat) (q : MusicQueue)
    (h : q.tracks = []) : MusicQueue.get_next_track pick q = (none, q) := by
  obtain ⟨g, tr, cur, lm, sm⟩ := q
  dsimp only at h
  subst h
  rfl

lemma MusicQueue.get_next_track_cons_fifo (pick : List Track → Nat) (q : MusicQueue)
    (t0 : Track) (rest : List Track) (hsh : q.shuffle_mode = false)
    (h : q.tracks = t0 :: rest) :
    MusicQueue.get_next_track pick q = (some t0, { q with tracks := rest }) := by
  obtain ⟨g, tr, cur, lm, sm⟩ := q
  dsimp only at h hsh
  subst h
  subst hsh
  rfl

lemma MusicQueue.get_next_track_some_spec (pick : List Track → Nat) (q : MusicQueue)
    (t : Track) (q2 : MusicQueue)
    (h : MusicQueue.get_next_track pick q = (some t, q2)) :
    t ∈ q.tracks ∧ q2.tracks.length + 1 = q.tracks.length ∧
    (∀ x ∈ q2.tracks, x ∈ q.tracks) ∧ q2.guild_id = q.guild_id ∧
    q2.current_track = q.current_track ∧ q2.loop_mode = q.loop_mode ∧
    q2.shuffle_mode = q.shuffle_mode := by
  obtain ⟨g, tr, cur, lm, sm⟩ := q
  cases tr with
  | nil => simp [MusicQueue.get_next_track] at h
  | cons t0 rest =>
    cases sm with
    | false =>
      simp only [MusicQueue.get_next_track, if_neg (by simp : ¬(false = true))] at h
      obtain ⟨rfl, rfl⟩ := Prod.mk.injEq .. |>.mp h |>.imp Option.some.inj id
      refine ⟨List.mem_cons_self t0 rest, by simp, ?_, rfl, rfl, rfl, rfl⟩
      intro x hx
      exact List.mem_cons_of_mem t0 hx
    | true =>
      have hlt : pick (t0 :: rest) % (t0 :: rest).length < (t0 :: rest).length :=
        Nat.mod_lt _ (by simp)
      simp only [MusicQueue.get_next_track, if_pos rfl] at h
      rw [List.get?_eq_get hlt] at h
      obtain ⟨rfl, rfl⟩ := Prod.mk.injEq .. |>.mp h |>.imp Option.some.inj id
      refine ⟨List.get_mem _ _ hlt, ?_, ?_, rfl, rfl, rfl, rfl⟩
      · dsimp only
        rw [List.length_eraseIdx, if_pos hlt]
        simp
      · intro x hx
        exact List.eraseIdx_subset _ _ hx

lemma MusicQueue.dequeueN_fifo (pick : List Track → Nat) :
    ∀ (n : Nat) (q : MusicQueue), q.shuffle_mode = false →
    MusicQueue.dequeueN pick q n = (q.tracks.take n, { q with tracks := q.tracks.drop n }) := by
  intro n
  induction n with
  | zero =>
    intro q hsh
    obtain ⟨g, tr, cur, lm, sm⟩ := q
    rfl
  | succ n ih =>
    intro q hsh
    obtain ⟨g, tr, cur, lm, sm⟩ := q
    dsimp only at hsh
    subst hsh
    cases tr with
    | nil => rfl
    | cons t0 rest =>
      rw [MusicQueue.dequeueN,
        MusicQueue.get_next_track_cons_fifo pick _ t0 rest rfl rfl]
      dsimp only
      rw [ih ⟨g, rest, cur, lm, false⟩ rfl]
      rfl


/-- Claim C1: add_track appends and returns the new 1-based position while
the queue is below MAX_QUEUE_SIZE; at or above MAX_QUEUE_SIZE it fails
with the queue-full error and leaves the queue completely unchanged, so
the length of tracks never exceeds MAX_QUEUE_SIZE under any sequence of
add_track calls. -/
theorem add_track_capacity (q : MusicQueue) (t : Track) :
    (q.tracks.length < Config.MAX_QUEUE_SIZE →
      q.add_track t = Except.ok (q.tracks.length + 1, { q with tracks := q.tracks ++ [t] }))
    ∧ (Config.MAX_QUEUE_SIZE ≤ q.tracks.length →
      q.add_track t =
        Except.error ("Queue is full (max " ++ toString Config.MAX_QUEUE_SIZE ++ " tracks)")
      ∧ q.runAddTrack t = q)
    ∧ (∀ ts : List Track, q.tracks.length ≤ Config.MAX_QUEUE_SIZE →
        (q.runAddTracks ts).tracks.length ≤ Config.MAX_QUEUE_SIZE) := by
  refine ⟨?_, ?_, ?_⟩
  · intro h
    unfold MusicQueue.add_track
    rw [if_neg (by omega)]
    simp [List.length_append]
  · intro h
    constructor
    · unfold MusicQueue.add_track
      rw [if_pos h]
    · unfold MusicQueue.runAddTrack MusicQueue.add_track
      rw [if_pos h]
  · intro ts h
    exact MusicQueue.runAddTracks_length_le ts q h

/-- Witness for C1 at concrete queues: an empty queue accepts a track at
position 1; a full queue rejects it and is left unchanged; 150 attempted
adds never push the length beyond the capacity. -/
theorem add_track_capacity_witness :
    qEmpty.add_track trackA = Except.ok (1, { qEmpty with tracks := [trackA] })
    ∧ qFull.add_track trackA =
        Except.error ("Queue is full (max " ++ toString Config.MAX_QUEUE_SIZE ++ " tracks)")
    ∧ qFull.runAddTrack trackA = qFull
    ∧ (qEmpty.runAddTracks (List.replicate 150 trackA)).tracks.length ≤ Config.MAX_QUEUE_SIZE := by
  refine ⟨?_, ?_, ?_, ?_⟩
  · exact (add_track_capacity qEmpty trackA).1 (by decide)
  · exact ((add_track_capacity qFull trackA).2.1 (by decide)).1
  · exact ((add_track_capacity qFull trackA).2.1 (by decide)).2
  · exact (add_track_capacity qEmpty trackA).2.2 (List.replicate 150 trackA) (by decide)

/-- Claim C3: add_tracks appends exactly min(N, k) tracks where k is the
free space, taken as a prefix of the input in input order, never raising,
and returns min(N, k). -/
theorem add_tracks_capacity (q : MusicQueue) (ts : List Track) :
    (q.add_tracks ts).1 = min ts.length (Config.MAX_QUEUE_SIZE - q.tracks.length)
    ∧ (q.add_tracks ts).2.tracks =
        q.tracks ++ ts.take (Config.MAX_QUEUE_SIZE - q.tracks.length)
    ∧ (q.add_tracks ts).2.tracks.length =
        q.tracks.length + min ts.length (Config.MAX_QUEUE_SIZE - q.tracks.length) := by
  have h := MusicQueue.add_tracks_eq q ts
  refine ⟨by rw [h], by rw [h], ?_⟩
  rw [h]
  dsimp only
  simp only [List.length_append, List.length_take]
  omega

/-- Claim C9: add_tracks is append-only — current_track, loop_mode,
shuffle_mode, guild_id and every already-queued track (in order) are
untouched, and the final length is the prior length plus the count
added. -/
theorem add_tracks_append_only (q : MusicQueue) (ts : List Track) :
    (q.add_tracks ts).2.current_track = q.current_track
    ∧ (q.add_tracks ts).2.loop_mode = q.loop_mode
    ∧ (q.add_tracks ts).2.shuffle_mode = q.shuffle_mode
    ∧ (q.add_tracks ts).2.guild_id = q.guild_id
    ∧ (q.add_tracks ts).2.tracks =
        q.tracks ++ ts.take (Config.MAX_QUEUE_SIZE - q.tracks.length)
    ∧ (q.add_tracks ts).2.tracks.length = q.tracks.length + (q.add_tracks ts).1 := by
  have h := MusicQueue.add_tracks_eq q ts
  refine ⟨by rw [h], by rw [h], by rw [h], by rw [h], by rw [h], ?_⟩
  rw [h]
  dsimp only
  simp only [List.length_append, List.length_take]
  omega

/-- Claim C4: get_next_track on an empty queue returns none and changes
nothing (in particular current_track); with shuffle_mode off, n repeated
calls hand out exactly the first n tracks in insertion order, each
removed from the queue exactly once. -/
theorem get_next_track_fifo (pick : List Track → Nat) (q : MusicQueue) :
    (q.tracks = [] → MusicQueue.get_next_track pick q = (none, q))
    ∧ (q.shuffle_mode = false → ∀ n : Nat,
        MusicQueue.dequeueN pick q n =
          (q.tracks.take n, { q with tracks := q.tracks.drop n })) := by
  exact ⟨MusicQueue.get_next_track_nil pick q,
    fun hsh n => MusicQueue.dequeueN_fifo pick n q hsh⟩

/-- Witness for C4: the empty queue yields none unchanged, and a concrete
two-track FIFO queue is drained in insertion order. -/
theorem get_next_track_fifo_witness :
    MusicQueue.get_next_track pickZero qEmpty = (none, qEmpty)
    ∧ MusicQueue.dequeueN pickZero qTwo 2 = ([trackA, trackB], { qTwo with tracks := [] }) := by
  constructor
  · exact (get_next_track_fifo pickZero qEmpty).1 rfl
  · exact (get_next_track_fifo pickZero qTwo).2 rfl 2

/-- Claim C10: remove_track is total and atomic — any index outside
[0, len) returns none with the queue unchanged, and an in-range index
removes and returns exactly the track at that position, shrinking the
queue by one and preserving the order of the rest. -/
theorem remove_track_total (q : MusicQueue) (i : Int) :
    (¬(0 ≤ i ∧ i < (q.tracks.length : Int)) → q.remove_track i = (none, q))
    ∧ (∀ (j : Nat) (hj : j < q.tracks.length), i = (j : Int) →
        q.remove_track i =
          (some (q.tracks.get ⟨j, hj⟩),
           { q with tracks := q.tracks.take j ++ q.tracks.drop (j + 1) })
        ∧ (q.remove_track i).2.tracks.length = q.tracks.length - 1) := by
  constructor
  · intro h
    unfold MusicQueue.remove_track
    rw [if_neg h]
  · rintro j hj rfl
    have hcond : (0 : Int) ≤ (j : Int) ∧ (j : Int) < (q.tracks.length : Int) :=
      ⟨Int.natCast_nonneg j, by exact_mod_cast hj⟩
    have heq : q.remove_track (j : Int) =
        (some (q.tracks.get ⟨j, hj⟩),
         { q with tracks := q.tracks.take j ++ q.tracks.drop (j + 1) }) := by
      unfold MusicQueue.remove_track
      rw [if_pos hcond, Int.toNat_natCast, List.get?_eq_get hj,
        List.eraseIdx_eq_take_drop_succ]
    refine ⟨heq, ?_⟩
    rw [heq]
    dsimp only
    rw [← List.eraseIdx_eq_take_drop_succ, List.length_eraseIdx, if_pos hj]

/-- Witness for C10: on a concrete two-track queue, index 5 is rejected
without change and index 0 removes exactly the first track. -/
theorem remove_track_total_witness :
    qTwo.remove_track 5 = (none, qTwo)
    ∧ qTwo.remove_track 0 = (some trackA, { qTwo with tracks := [trackB] }) := by
  constructor
  · exact (remove_track_total qTwo 5).1 (by decide)
  · exact ((remove_track_total qTwo 0).2 0 (by decide) rfl).1

/-- Claim C7: a Track built by from_youtube has needs_resolution false
with its url present; one built by from_spotify has needs_resolution
true, url absent, and search_query "artist name"; and at construction
needs_resolution holds exactly when the url is absent. -/
theorem track_construction_resolution :
    (∀ (title url uploader : String) (duration : Nat),
      (Track.from_youtube title url uploader duration).needs_resolution = false
      ∧ (Track.from_youtube title url uploader duration).url = some url)
    ∧ (∀ (name artist : String) (uid : Option String),
      (Track.from_spotify name artist uid).needs_resolution = true
      ∧ (Track.from_spotify name artist uid).url = none
      ∧ (Track.from_spotify name artist uid).search_query = artist ++ " " ++ name)
    ∧ (∀ (title artist sq : String) (url : Option String) (src : String)
        (uid : Option String) (d : Nat) (up : Option String),
      ((Track.init title artist sq url src uid d up).needs_resolution = true ↔ url = none)) := by
  refine ⟨fun t u up d => ⟨rfl, rfl⟩, fun n a uid => ⟨rfl, rfl, rfl⟩, ?_⟩
  intro t a s u src uid d up
  simp [Track.init, Option.isNone_iff_eq_none]

/-- Claim C8: pause returns false and changes nothing when not playing,
resume returns false and changes nothing when not paused, and a second
call in the state the first call produced returns false and leaves that
state unchanged. -/
theorem pause_resume_noop (p : MusicPlayer) :
    (p.is_playing = false → p.pause = (false, p))
    ∧ (p.voiceIsPaused = false → p.resume = (false, p))
    ∧ MusicPlayer.pause (p.pause).2 = (false, (p.pause).2)
    ∧ MusicPlayer.resume (p.resume).2 = (false, (p.resume).2) := by
  obtain ⟨g, q, vcOpt, ip⟩ := p
  cases vcOpt with
  | none => exact ⟨fun _ => rfl, fun _ => rfl, rfl, rfl⟩
  | some vc =>
    obtain ⟨c, pl, pa⟩ := vc
    cases pl <;> cases pa <;>
      refine ⟨fun h => ?_, fun h => ?_, ?_, ?_⟩ <;>
        simp_all [MusicPlayer.is_playing, MusicPlayer.voiceIsPaused,
          MusicPlayer.pause, MusicPlayer.resume]

/-- Witness for C8: a player with no voice client rejects pause, and
pausing a playing player then pausing again is rejected with the state
kept. -/
theorem pause_resume_noop_witness :
    pIdle.pause = (false, pIdle)
    ∧ MusicPlayer.pause (pPlaying.pause).2 = (false, (pPlaying.pause).2)
    ∧ MusicPlayer.resume (pIdle.resume).2 = (false, (pIdle.resume).2) := by
  exact ⟨(pause_resume_noop pIdle).1 rfl, (pause_resume_noop pPlaying).2.2.1,
    (pause_resume_noop pIdle).2.2.2⟩

/-- Counterexample to C5 as stated: the first strategy of
get_youtube_info fails with an error that is not classified as
bot-detection, yet the call does not short-circuit to the terminal
failure value — the second strategy is still attempted and its result is
returned. -/
theorem get_youtube_info_no_shortcircuit :
    stratFailTimeout "q" = Except.error "network timeout"
    ∧ isBotDetection "network timeout" = false
    ∧ AudioSource.get_youtube_info truthyNat stratFailTimeout stratOkSeven "q" = some 7 := by
  refine ⟨rfl, by decide, by decide⟩

/-- Claim C5 amended: get_youtube_info tries its strategies in order, but
a strategy failure of any classification lets the loop move on to the
remaining strategies (bot-detection classification only affects logging);
when every strategy fails — bot-detected or not — the result is the
terminal failure value none. -/
theorem get_youtube_info_failure_policy {α : Type} (truthyA : α → Bool) (query : String) :
    (∀ (s : String → Except String (YtData α))
        (rest : List (String → Except String (YtData α))) (e : String),
      s query = Except.error e →
      AudioSource.get_youtube_infoGo truthyA query (s :: rest) =
        AudioSource.get_youtube_infoGo truthyA query rest)
    ∧ (∀ strategies : List (String → Except String (YtData α)),
      (∀ s ∈ strategies, ∃ e, s query = Except.error e) →
      AudioSource.get_youtube_infoGo truthyA query strategies = none)
    ∧ (∀ (s1 s2 : String → Except String (YtData α)) (e1 e2 : String),
      s1 query = Except.error e1 → s2 query = Except.error e2 →
      AudioSource.get_youtube_info truthyA s1 s2 query = none) := by
  have hstep : ∀ (s : String → Except String (YtData α))
      (rest : List (String → Except String (YtData α))) (e : String),
      s query = Except.error e →
      AudioSource.get_youtube_infoGo truthyA query (s :: rest) =
        AudioSource.get_youtube_infoGo truthyA query rest := by
    intro s rest e h
    have hun : AudioSource.get_youtube_infoGo truthyA query (s :: rest) =
        (if isBotDetection e then AudioSource.get_youtube_infoGo truthyA query rest
         else if rest.isEmpty then none
         else AudioSource.get_youtube_infoGo truthyA query rest) := by
      rw [AudioSource.get_youtube_infoGo, h]
    rw [hun]
    by_cases hb : isBotDetection e
    · rw [if_pos hb]
    · rw [if_neg hb]
      cases rest with
      | nil => rfl
      | cons a l => rfl
  refine ⟨hstep, ?_, ?_⟩
  · intro strategies hall
    induction strategies with
    | nil => rfl
    | cons s rest ih =>
      obtain ⟨e, he⟩ := hall s (List.mem_cons_self s rest)
      rw [hstep s rest e he]
      exact ih (fun x hx => hall x (List.mem_cons_of_mem s hx))
  · intro s1 s2 e1 e2 h1 h2
    unfold AudioSource.get_youtube_info
    rw [hstep s1 [s2] e1 h1, hstep s2 [] e2 h2]
    rfl

/-- Witness for the amended C5: with both concrete strategies failing,
get_youtube_info returns the terminal failure value. -/
theorem get_youtube_info_failure_policy_witness :
    AudioSource.get_youtube_info truthyNat stratFailTimeout stratFailTimeout "q" = none :=
  (get_youtube_info_failure_policy truthyNat "q").2.2 stratFailTimeout stratFailTimeout
    "network timeout" "network timeout" rfl rfl

/- One unrolling of the create_audio_source retry loop. -/

lemma AudioSource.create_audio_sourceGo_succ {α : Type} (fromUrl : Nat → Except String α)
    (r a : Nat) (calls delays : List Nat) :
    AudioSource.create_audio_sourceGo fromUrl (r + 1) a calls delays =
      (match fromUrl a with
       | Except.ok s => { source := some s, calls := calls ++ [a], delays := delays }
       | Except.error e =>
         if isBotDetection e ∧ a < AudioSource.max_retries - 1 then
           AudioSource.create_audio_sourceGo fromUrl r (a + 1) (calls ++ [a])
             (delays ++ [2 ^ a])
         else if a = AudioSource.max_retries - 1 then
           { source := none, calls := calls ++ [a], delays := delays }
         else
           AudioSource.create_audio_sourceGo fromUrl r (a + 1) (calls ++ [a]) delays) := rfl

lemma AudioSource.create_audio_sourceGo_calls_le {α : Type}
    (fromUrl : Nat → Except String α) :
    ∀ (remaining attempt : Nat) (calls delays : List Nat),
    (AudioSource.create_audio_sourceGo fromUrl remaining attempt calls delays).calls.length ≤
      calls.length + remaining := by
  intro remaining
  induction remaining with
  | zero =>
    intro a calls delays
    simp [AudioSource.create_audio_sourceGo]
  | succ r ih =>
    intro a calls delays
    rw [AudioSource.create_audio_sourceGo_succ]
    cases hf : fromUrl a with
    | ok s =>
      simp [List.length_append]
    | error e =>
      dsimp only
      by_cases hb : isBotDetection e ∧ a < AudioSource.max_retries - 1
      · rw [if_pos hb]
        refine le_trans (ih (a + 1) (calls ++ [a]) (delays ++ [2 ^ a])) ?_
        simp [List.length_append]
        omega
      · rw [if_neg hb]
        by_cases ha : a = AudioSource.max_retries - 1
        · rw [if_pos ha]
          simp [List.length_append]
        · rw [if_neg ha]
          refine le_trans (ih (a + 1) (calls ++ [a]) delays) ?_
          simp [List.length_append]
          omega

/-- Counterexample to C6 as stated: the first from_url attempt fails with
an error not classified as bot-detection, yet create_audio_source does
not fail immediately — a second attempt is made (with no backoff sleep)
and its result is returned. -/
theorem create_audio_source_no_immediate_fail :
    fromUrlC6 0 = Except.error "http error 403"
    ∧ isBotDetection "http error 403" = false
    ∧ AudioSource.create_audio_source fromUrlC6 =
        { source := some 42, calls := [0, 1], delays := [] } := by
  refine ⟨rfl, by decide, by decide⟩

/-- Claim C6 amended: create_audio_source makes at most 3 attempts; after
a bot-detection-classified failure on a non-final attempt it sleeps
2 ^ attempt seconds (1s, then 2s) before retrying; a failure not
classified as bot-detection also proceeds to the next attempt, but with
no backoff sleep; only when the final attempt fails does the call return
the failure result. -/
theorem create_audio_source_retry_policy {α : Type} (fromUrl : Nat → Except String α) :
    (AudioSource.create_audio_source fromUrl).calls.length ≤ AudioSource.max_retries
    ∧ (∀ e0 e1 e2 : String, fromUrl 0 = Except.error e0 → fromUrl 1 = Except.error e1 →
        fromUrl 2 = Except.error e2 →
        AudioSource.create_audio_source fromUrl =
          { source := none, calls := [0, 1, 2],
            delays := (if isBotDetection e0 then [1] else []) ++
                      (if isBotDetection e1 then [2] else []) })
    ∧ (∀ (e0 : String) (s : α), fromUrl 0 = Except.error e0 → isBotDetection e0 = false →
        fromUrl 1 = Except.ok s →
        AudioSource.create_audio_source fromUrl =
          { source := some s, calls := [0, 1], delays := [] }) := by
  have h3 : AudioSource.max_retries = 2 + 1 := rfl
  have h2n : (2 : Nat) = 1 + 1 := rfl
  have h1n : (1 : Nat) = 0 + 1 := rfl
  refine ⟨?_, ?_, ?_⟩
  · refine le_trans
      (AudioSource.create_audio_sourceGo_calls_le fromUrl AudioSource.max_retries 0 [] []) ?_
    simp
  · intro e0 e1 e2 he0 he1 he2
    unfold AudioSource.create_audio_source
    rw [h3, AudioSource.create_audio_sourceGo_succ, he0]
    dsimp only
    by_cases hb0 : isBotDetection e0
    · rw [if_pos ⟨hb0, by decide⟩, h2n, AudioSource.create_audio_sourceGo_succ, he1]
      dsimp only
      by_cases hb1 : isBotDetection e1
      · rw [if_pos ⟨hb1, by decide⟩, h1n, AudioSource.create_audio_sourceGo_succ, he2]
        dsimp only
        rw [if_neg (fun hc => by exact absurd hc.2 (by decide)),
          if_pos (by decide : (2 : Nat) = AudioSource.max_retries - 1),
          if_pos hb0, if_pos hb1]
        rfl
      · rw [if_neg (fun hc => hb1 hc.1),
          if_neg (by decide : ¬((1 : Nat) = AudioSource.max_retries - 1)),
          h1n, AudioSource.create_audio_sourceGo_succ, he2]
        dsimp only
        rw [if_neg (fun hc => by exact absurd hc.2 (by decide)),
          if_pos (by decide : (2 : Nat) = AudioSource.max_retries - 1),
          if_pos hb0, if_neg hb1]
        rfl
    · rw [if_neg (fun hc => hb0 hc.1),
        if_neg (by decide : ¬((0 : Nat) = AudioSource.max_retries - 1)),
        h2n, AudioSource.create_audio_sourceGo_succ, he1]
      dsimp only
      by_cases hb1 : isBotDetection e1
      · rw [if_pos ⟨hb1, by decide⟩, h1n, AudioSource.create_audio_sourceGo_succ, he2]
        dsimp only
        rw [if_neg (fun hc => by exact absurd hc.2 (by decide)),
          if_pos (by decide : (2 : Nat) = AudioSource.max_retries - 1),
          if_neg hb0, if_pos hb1]
        rfl
      · rw [if_neg (fun hc => hb1 hc.1),
          if_neg (by decide : ¬((1 : Nat) = AudioSource.max_retries - 1)),
          h1n, AudioSource.create_audio_sourceGo_succ, he2]
        dsimp only
        rw [if_neg (fun hc => by exact absurd hc.2 (by decide)),
          if_pos (by decide : (2 : Nat) = AudioSource.max_retries - 1),
          if_neg hb0, if_neg hb1]
        rfl
  · intro e0 s he0 hb0 he1
    unfold AudioSource.create_audio_source
    rw [h3, AudioSource.create_audio_sourceGo_succ, he0]
    dsimp only
    rw [if_neg (fun hc => by rw [hb0] at hc; exact Bool.false_ne_true hc.1),
      if_neg (by decide : ¬((0 : Nat) = AudioSource.max_retries - 1)),
      h2n, AudioSource.create_audio_sourceGo_succ, he1]
    rfl

/-- Witness for the amended C6: three bot-detection failures exhaust the
three attempts with backoff sleeps of 1s and 2s, and a non-bot failure
followed by a success returns the success on the second attempt with no
sleep. -/
theorem create_audio_source_retry_policy_witness :
    AudioSource.create_audio_source fromUrlAllBot =
      { source := none, calls := [0, 1, 2], delays := [1, 2] }
    ∧ AudioSource.create_audio_source fromUrlC6 =
      { source := some 42, calls := [0, 1], delays := [] } := by
  constructor
  · have h := (create_audio_source_retry_policy fromUrlAllBot).2.1
      "Sign in to confirm you are not a bot" "Sign in to confirm you are not a bot"
      "Sign in to confirm you are not a bot" rfl rfl rfl
    rw [h]
    have hb : isBotDetection "Sign in to confirm you are not a bot" = true := by decide
    rw [hb]
    decide
  · exact (create_audio_source_retry_policy fromUrlC6).2.2 "http error 403" 42 rfl
      (by decide) rfl

lemma MusicQueue.get_next_track_none_spec (pick : List Track → Nat) (q q2 : MusicQueue)
    (h : MusicQueue.get_next_track pick q = (none, q2)) :
    q.tracks = [] ∧ q2 = q := by
  obtain ⟨g, tr, cur, lm, sm⟩ := q
  cases tr with
  | nil =>
    simp only [MusicQueue.get_next_track] at h
    exact ⟨rfl, (Prod.mk.injEq .. |>.mp h).2.symm⟩
  | cons t0 rest =>
    cases sm with
    | false =>
      simp [MusicQueue.get_next_track] at h
    | true =>
      have hlt : pick (t0 :: rest) % (t0 :: rest).length < (t0 :: rest).length :=
        Nat.mod_lt _ (by simp)
      simp only [MusicQueue.get_next_track, if_pos rfl] at h
      rw [List.get?_eq_get hlt] at h
      simp at h

lemma play_next_drains_aux {α : Type} (lookup : String → Option YtInfo)
    (createSource : String → Option α) (pick : List Track → Nat) :
    ∀ (n : Nat) (p : MusicPlayer) (vc : VoiceClient),
      p.queue.tracks.length ≤ n →
      p.voice_client = some vc → vc.connected = true →
      (∀ t ∈ p.queue.tracks, t.needs_resolution = true ∧
        strTruthy (resolve_track_url lookup t).url = false) →
      MusicPlayer.play_next lookup createSource pick p =
        (false, { p with queue := { p.queue with tracks := [] } }) := by
  intro n
  induction n with
  | zero =>
    intro p vc hlen hvc hconn hall
    have hnil : p.queue.tracks = [] := List.eq_nil_of_length_eq_zero (Nat.le_zero.mp hlen)
    rw [MusicPlayer.play_next.eq_def, hvc]
    dsimp only
    rw [hconn]
    simp only [Bool.not_true, Bool.false_eq_true, if_false]
    split
    next q2 heq =>
      obtain ⟨-, rfl⟩ := MusicQueue.get_next_track_none_spec pick p.queue q2 heq
      have hq : ({ p.queue with tracks := ([] : List Track) } : MusicQueue) = p.queue := by
        rw [← hnil]
      rw [hq]
    next t q2 heq =>
      rw [MusicQueue.get_next_track_nil pick p.queue hnil] at heq
      simp at heq
  | succ n ih =>
    intro p vc hlen hvc hconn hall
    rw [MusicPlayer.play_next.eq_def, hvc]
    dsimp only
    rw [hconn]
    simp only [Bool.not_true, Bool.false_eq_true, if_false]
    split
    next q2 heq =>
      obtain ⟨hnil, rfl⟩ := MusicQueue.get_next_track_none_spec pick p.queue q2 heq
      have hq : ({ p.queue with tracks := ([] : List Track) } : MusicQueue) = p.queue := by
        rw [← hnil]
      rw [hq]
    next t q2 heq =>
      obtain ⟨hmem, hlen2, hsub, hg, hcur, hlm, hsm⟩ :=
        MusicQueue.get_next_track_some_spec pick p.queue t q2 heq
      obtain ⟨hres, hurl⟩ := hall t hmem
      rw [hres, if_pos rfl]
      rw [hurl]
      simp only [Bool.not_false, if_pos rfl]
      rw [if_pos trivial]
      have ihh := ih { p with queue := q2 } vc (by dsimp only; omega) hvc hconn
        (fun x hx => hall x (hsub x hx))
      rw [hvc] at ihh
      rw [ihh]
      have hq : ({ q2 with tracks := ([] : List Track) } : MusicQueue) =
          { p.queue with tracks := ([] : List Track) } := by
        simp only [MusicQueue.mk.injEq]
        exact ⟨hg, trivial, hcur, hlm, hsm⟩
      rw [hq]

/-- Claim C2: on a connected player whose queue holds only unresolvable
tracks (resolution leaves their stream reference absent), play_next
terminates, skips them all, returns the nothing-to-play result false,
drains the queue to empty, and leaves current_track (and every other
player field) exactly as it was — it is never set to an unresolved
track. -/
theorem play_next_drains_unresolvable {α : Type} (lookup : String → Option YtInfo)
    (createSource : String → Option α) (pick : List Track → Nat)
    (p : MusicPlayer) (vc : VoiceClient)
    (hvc : p.voice_client = some vc) (hconn : vc.connected = true)
    (hall : ∀ t ∈ p.queue.tracks, t.needs_resolution = true ∧
      strTruthy (resolve_track_url lookup t).url = false) :
    MusicPlayer.play_next lookup createSource pick p =
      (false, { p with queue := { p.queue with tracks := [] } }) :=
  play_next_drains_aux lookup createSource pick p.queue.tracks.length p vc
    le_rfl hvc hconn hall

/-- Witness for C2: a connected player queued with two Spotify-style
tracks and a resolver that always fails drains to an empty queue,
returning false with current_track untouched. -/
theorem play_next_drains_unresolvable_witness :
    MusicPlayer.play_next lookupNone sourceNone pickZero pUnresolved =
      (false, { pUnresolved with queue := { pUnresolved.queue with tracks := [] } }) :=
  play_next_drains_unresolvable lookupNone sourceNone pickZero pUnresolved
    vcConnected rfl rfl (by decide)
